import Mathlib

/-!
Verification of the AOTY scraping library against its specification.

The Python sources under `src/aoty/` are shallowly embedded: pure string
manipulation is translated to Lean functions on `String` / `List Char`,
HTML documents are represented by record types holding exactly the node
texts and attributes each scraper reads, network fetches are oracles
passed as function arguments, and Python exceptions become explicit
`Except` values.  Python `float` values parsed from all-digit or plain
decimal markup are represented as exact rationals (`ℚ`); IEEE-754
rounding, exponent notation and inf/nan spellings are not modelled, and
no property proved here depends on them.
-/

namespace Aoty

/-! ## Python string primitives -/

/-- Whitespace characters recognised by Python's `str.strip()` (ASCII range). -/
def isPySpace (c : Char) : Bool :=
  c == ' ' || c == '\t' || c == '\n' || c == '\r' || c == '\x0b' || c == '\x0c'

/-- Strip leading and trailing Python whitespace from a character list. -/
def stripChars (l : List Char) : List Char :=
  ((l.dropWhile isPySpace).reverse.dropWhile isPySpace).reverse

/-- Python `str.strip()`. -/
def pyStrip (s : String) : String :=
  ⟨stripChars s.data⟩

/-- Test whether `pat` is a prefix of `l` (character lists). -/
def isPrefixList : List Char → List Char → Bool
  | [], _ => true
  | _ :: _, [] => false
  | a :: as, b :: bs => a == b && isPrefixList as bs

/-- Python's `pat in s` substring containment test, on character lists. -/
def containsSub (pat : List Char) : List Char → Bool
  | [] => isPrefixList pat []
  | c :: rest => isPrefixList pat (c :: rest) || containsSub pat rest

/-- Python `str.replace(pat, repl)` (leftmost, non-overlapping), for a
non-empty pattern, on character lists.  The fuel argument only bounds the
recursion; with fuel at least the input length the zero-fuel case is never
reached, since every step consumes at least one input character. -/
def replaceListFuel (pat repl : List Char) : Nat → List Char → List Char
  | _, [] => []
  | 0, l => l
  | fuel + 1, c :: rest =>
    if isPrefixList pat (c :: rest) && !pat.isEmpty then
      repl ++ replaceListFuel pat repl fuel (List.drop (pat.length - 1) rest)
    else
      c :: replaceListFuel pat repl fuel rest

/-- Python `str.replace(pat, repl)` on character lists. -/
def replaceList (pat repl l : List Char) : List Char :=
  replaceListFuel pat repl l.length l

/-- Numeric value of a digit-character list (most significant first). -/
def natOfDigits (l : List Char) : Nat :=
  l.foldl (fun n c => 10 * n + (c.toNat - '0'.toNat)) 0

/-! ## Configuration (`src/aoty/config.py`) -/

/-- Base URL for the Album of the Year website. -/
def AOTY_BASE_URL : String := "https://www.albumoftheyear.org"

/-! ## Error taxonomy (`src/aoty/exceptions.py`)

The exceptions module defines the base class `AOTYError` and four
subclasses; the value-level embedding below also carries an
`artistNotFound` constructor because `src/aoty/scrapers/artist.py`
imports and raises a class of that name from `aoty.exceptions`,
although the module itself never defines it (see the taxonomy claim). -/

/-- Exception classes defined in `src/aoty/exceptions.py`, each paired with
the name of its direct base class, in source order. -/
def exceptions_module_classes : List (String × String) :=
  [("AOTYError", "Exception"),
   ("AlbumNotFoundError", "AOTYError"),
   ("ParsingError", "AOTYError"),
   ("ResourceNotFoundError", "AOTYError"),
   ("NetworkError", "AOTYError")]

/-- The leaf failure kinds of the taxonomy: the classes whose direct base is
`AOTYError`. -/
def aoty_error_leaves : List String :=
  (exceptions_module_classes.filter (fun p => p.2 = "AOTYError")).map (fun p => p.1)

/-- Names imported from `aoty.exceptions` by `src/aoty/scrapers/artist.py`. -/
def artist_module_exception_imports : List String :=
  ["ArtistNotFoundError", "NetworkError", "ParsingError", "ResourceNotFoundError"]

/-- Failure values raised by the scrapers (subclasses of `AOTYError`, each
carrying only a message). -/
inductive AotyErr where
  | albumNotFound (msg : String)
  | artistNotFound (msg : String)
  | resourceNotFound (msg : String)
  | networkError (msg : String)
  | parsingError (msg : String)
  deriving Repr, DecidableEq

/-- Python-level exceptions that are not `AOTYError` subclasses but can
escape parsing code and hit an `except Exception` boundary. -/
inductive PyExc where
  | typeError (msg : String)
  | indexError (msg : String)
  deriving Repr, DecidableEq

/-- Message text of a plain Python exception (its `str(e)`). -/
def pyExcMessage : PyExc → String
  | .typeError m => m
  | .indexError m => m

/-! ## Base scraping client (`src/aoty/scrapers/base.py`) -/

/-- Outcome of `BaseScraper._get_html` as observed by a caller: a parsed
document on success, or one of the two failure kinds the base client raises. -/
inductive FetchOutcome (α : Type) where
  | success (doc : α)
  | notFound
  | network (msg : String)

/-- Embedding of `BaseScraper._build_full_url`: prefix the base URL onto a
truthy (non-empty) relative path, otherwise return `None`. -/
def build_full_url : Option String → Option String
  | some p => if p = "" then none else some (AOTY_BASE_URL ++ p)
  | none => none

/-- Python `x or y` on two optional strings (first operand wins when truthy,
i.e. present and non-empty). -/
def pyOrStr : Option String → Option String → Option String
  | some s, b => if s = "" then b else some s
  | none, b => b

/-- Python `int(s)` on stripped text: optional sign then one or more digits. -/
def pyIntOfString (s : String) : Option Int :=
  let l := stripChars s.data
  match l with
  | '-' :: ds => if ds ≠ [] ∧ ds.all Char.isDigit then some (-(natOfDigits ds : Int)) else none
  | '+' :: ds => if ds ≠ [] ∧ ds.all Char.isDigit then some ((natOfDigits ds : Int)) else none
  | ds => if ds ≠ [] ∧ ds.all Char.isDigit then some ((natOfDigits ds : Int)) else none

/-- Decimal fragment of Python `float(s)`: optional sign, then digits with an
optional fractional part (at least one digit overall), evaluated exactly in ℚ. -/
def pyFloatOfString (s : String) : Option ℚ :=
  let l := stripChars s.data
  let core : List Char → Option ℚ := fun cs =>
    let intPart := cs.takeWhile Char.isDigit
    let rest := cs.dropWhile Char.isDigit
    match rest with
    | [] => if intPart ≠ [] then some ((natOfDigits intPart : ℚ)) else none
    | '.' :: frac =>
      if frac.all Char.isDigit ∧ (intPart ≠ [] ∨ frac ≠ []) then
        some ((natOfDigits intPart : ℚ) + (natOfDigits frac : ℚ) / (10 ^ frac.length : ℚ))
      else none
    | _ => none
  match l with
  | '-' :: cs => (core cs).map (fun q => -q)
  | '+' :: cs => core cs
  | cs => core cs

/-- Embedding of `BaseScraper._parse_number` specialised to `int`, applied to
the resolved text or attribute value (`none` when the element or attribute
was missing): parse failures fall back to the default. -/
def parse_int_text (v : Option String) (default : Option Int) : Option Int :=
  match v with
  | none => default
  | some s =>
    match pyIntOfString s with
    | some n => some n
    | none => default

/-- Embedding of `BaseScraper._parse_number` specialised to `float`, applied
to the resolved text or attribute value. -/
def parse_float_text (v : Option String) (default : Option ℚ) : Option ℚ :=
  match v with
  | none => default
  | some s =>
    match pyFloatOfString s with
    | some q => some q
    | none => default

/-! ## Date utility (`src/aoty/utils.py`)

`parse_release_date` delegates to `datetime.strptime(date_str, "%B%d,%Y")`.
The embedding reproduces CPython's `_strptime` behaviour for that format:
`%B` matches a full month name case-insensitively, `%d` matches
`3[01] | [12]\d | 0[1-9] | [1-9] | space[1-9]` (alternatives tried in that
order), the comma is literal, `%Y` matches exactly four digits, the whole
string must be consumed, and the resulting triple must be a valid
proleptic-Gregorian calendar date (else `ValueError`, which the utility
turns into `None`). -/

/-- Calendar date as produced by `datetime.date`. -/
structure PyDate where
  year : Nat
  month : Nat
  day : Nat
  deriving Repr, DecidableEq

/-- Full month names with their numbers, as in the C locale used by `%B`. -/
def monthNames : List (String × Nat) :=
  [("january", 1), ("february", 2), ("march", 3), ("april", 4),
   ("may", 5), ("june", 6), ("july", 7), ("august", 8),
   ("september", 9), ("october", 10), ("november", 11), ("december", 12)]

/-- Gregorian leap-year test used by `datetime`. -/
def isLeapYear (y : Nat) : Bool :=
  (y % 4 == 0 && y % 100 != 0) || y % 400 == 0

/-- Number of days in a month, as enforced by the `datetime.date` constructor. -/
def daysInMonth (y m : Nat) : Nat :=
  if m = 2 then (if isLeapYear y then 29 else 28)
  else if m = 4 ∨ m = 6 ∨ m = 9 ∨ m = 11 then 30
  else 31

/-- Match `%B` (case-insensitive full month name) at the head of the input,
returning the month number and the unconsumed remainder. -/
def matchMonth (l : List Char) : Option (Nat × List Char) :=
  monthNames.findSome? (fun p =>
    if isPrefixList p.1.data (l.map Char.toLower) then
      some (p.2, l.drop p.1.data.length)
    else none)

/-- The `%d` alternatives of `_strptime`, in regex order: each candidate is a
parsed day value together with the unconsumed remainder. -/
def dayCandidates (l : List Char) : List (Nat × List Char) :=
  (match l with
   | '3' :: b :: r => if b = '0' ∨ b = '1' then [(natOfDigits ['3', b], r)] else []
   | _ => []) ++
  (match l with
   | a :: b :: r =>
     if (a = '1' ∨ a = '2') ∧ b.isDigit then [(natOfDigits [a, b], r)] else []
   | _ => []) ++
  (match l with
   | '0' :: b :: r => if b.isDigit ∧ b ≠ '0' then [(natOfDigits [b], r)] else []
   | _ => []) ++
  (match l with
   | a :: r => if a.isDigit ∧ a ≠ '0' then [(natOfDigits [a], r)] else []
   | _ => []) ++
  (match l with
   | ' ' :: b :: r => if b.isDigit ∧ b ≠ '0' then [(natOfDigits [b], r)] else []
   | _ => [])

/-- Match the literal comma and `%Y` (exactly four digits), which must end the
input, returning the year. -/
def matchCommaYear : List Char → Option Nat
  | ',' :: a :: b :: c :: d :: [] =>
    if a.isDigit ∧ b.isDigit ∧ c.isDigit ∧ d.isDigit then
      some (natOfDigits [a, b, c, d])
    else none
  | _ => none

/-- Regex phase of `strptime(s, "%B%d,%Y")`: month, then the first day
alternative whose remainder completes as `,YYYY`. -/
def matchBdY (l : List Char) : Option (Nat × Nat × Nat) :=
  match matchMonth l with
  | none => none
  | some (m, r) =>
    (dayCandidates r).findSome? (fun c =>
      (matchCommaYear c.2).map (fun y => (y, m, c.1)))

/-- Constructor phase of `strptime`: `datetime.date` validates the ranges and
raises `ValueError` otherwise. -/
def mkPyDate (y m d : Nat) : Option PyDate :=
  if 1 ≤ y ∧ y ≤ 9999 ∧ 1 ≤ m ∧ m ≤ 12 ∧ 1 ≤ d ∧ d ≤ daysInMonth y m then
    some ⟨y, m, d⟩
  else none

/-- Embedding of `datetime.strptime(s, "%B%d,%Y").date()` with `ValueError`
mapped to `none`. -/
def strptime_BdY (s : String) : Option PyDate :=
  match matchBdY s.data with
  | some (y, m, d) => mkPyDate y m d
  | none => none

/-- Embedding of `parse_release_date` from `src/aoty/utils.py`: falsy input
returns `None`, otherwise `strptime` with format `"%B%d,%Y"`, all failures
degrading to `None`. -/
def parse_release_date (date_str : Option String) : Option PyDate :=
  match date_str with
  | none => none
  | some s => if s = "" then none else strptime_BdY s

/-! ## Album page genres (`src/aoty/scrapers/album.py`, "genre" detail row) -/

/-- Fold step shared by the three genre-collection loops: append a candidate
name when it is truthy and not already collected. -/
def genreStep (acc : List String) (name : String) : List String :=
  if name ≠ "" ∧ name ∉ acc then acc ++ [name] else acc

/-- Embedding of the `"genre"` branch of the album details loop:
`metaContents` are the `content` attributes of `meta[itemprop="genre"]` tags
(`none` when the attribute is missing), `linkTexts` the stripped texts of the
row's `a` tags, and `secondaryTexts` the stripped texts of its
`div.secondary` tags, each list in document order. -/
def album_genres (metaContents : List (Option String))
    (linkTexts secondaryTexts : List String) : List String :=
  let g1 := metaContents.foldl
    (fun acc c => match c with
      | some name => genreStep acc name
      | none => acc) []
  let g2 := linkTexts.foldl genreStep g1
  secondaryTexts.foldl genreStep g2

/-- Append a name only when not already present: the step of first-occurrence
de-duplication, written from the specification's description of the genre
union. -/
def dedupStep (acc : List String) (name : String) : List String :=
  if name ∉ acc then acc ++ [name] else acc

/-- De-duplication keeping the first occurrence of each string, written from
the specification's description of the genre union; to be compared with
`album_genres`. -/
def dedupKeepFirst (l : List String) : List String :=
  l.foldl dedupStep []

/-! ## Album fetch translation (`AlbumScraper._scrape_album_page`) -/

/-- Fetch-and-translate phase of `AlbumScraper._scrape_album_page`: a
`ResourceNotFoundError` from the base client becomes `AlbumNotFoundError`, a
`NetworkError` becomes `ParsingError` wrapping the underlying message, and a
successful fetch hands the document to the page-parsing body. -/
def scrape_album_page {α β : Type} (url : String) (outcome : FetchOutcome α)
    (body : α → Except AotyErr β) : Except AotyErr β :=
  match outcome with
  | .success doc => body doc
  | .notFound => .error (.albumNotFound ("Album not found at URL: " ++ url))
  | .network m =>
    .error (.parsingError ("Failed to fetch album page " ++ url ++ ": " ++ m))

/-- Embedding of `AlbumScraper.scrape_album_by_id`: build the canonical album
URL and delegate to the page scrape (whose parsing body is abstracted). -/
def scrape_album_by_id {α β : Type} (fetch : String → FetchOutcome α)
    (body : α → Except AotyErr β) (album_id : String) : Except AotyErr β :=
  scrape_album_page (AOTY_BASE_URL ++ "/album/" ++ album_id ++ ".php")
    (fetch (AOTY_BASE_URL ++ "/album/" ++ album_id ++ ".php")) body

/-- Substring presence of `needle` in `hay`, used to state "the requested URL
is present in the message". -/
def SubstrPresent (needle hay : String) : Prop :=
  ∃ pre post, hay = pre ++ needle ++ post

/-! ## Full credits (`AlbumScraper._scrape_full_credits`) -/

/-- The name link of a credit entry (`div.name a`): stripped text and
optional `href`. -/
structure CreditNameNode where
  text : String
  href : Option String
  deriving Repr, DecidableEq

/-- One `div.credit` entry: optional name link and, when the `div.songs`
container is present, the stripped texts of its role links in order. -/
structure CreditEntry where
  nameNode : Option CreditNameNode
  songsRoles : Option (List String)
  deriving Repr, DecidableEq

/-- An album credit record (`AlbumCredit` in `src/aoty/models.py`). -/
structure AlbumCredit where
  name : String
  url : Option String
  role : String
  deriving Repr, DecidableEq

/-- Roles collected for a credit entry: the role-link texts that are truthy
and not the literal `"Primary"`; empty when the songs container is absent. -/
def credit_roles (e : CreditEntry) : List String :=
  match e.songsRoles with
  | some roleTexts => roleTexts.filter (fun t => t ≠ "" ∧ t ≠ "Primary")
  | none => []

/-- Credits emitted for one entry under a section title: one record per
remaining role, or a single record carrying the section title when no roles
remain; nothing when the name link is absent. -/
def parse_credit (section_title : String) (e : CreditEntry) : List AlbumCredit :=
  match e.nameNode with
  | none => []
  | some nn =>
    let url := build_full_url nn.href
    let roles := credit_roles e
    if roles = [] then [⟨nn.text, url, section_title⟩]
    else roles.map (fun r => ⟨nn.text, url, r⟩)

/-- Credits emitted for all entries of one `div.creditWrapper`. -/
def parse_credit_wrapper (section_title : String) (entries : List CreditEntry) :
    List AlbumCredit :=
  (entries.map (parse_credit section_title)).flatten

/-- One `div.inner` section of the credits response: section titles paired
positionally with credit wrappers; indexing past the end of the wrapper list
raises `IndexError` as in the Python loop. -/
def scrape_full_credits_inner (titles : List String)
    (wrappers : List (List CreditEntry)) : Except PyExc (List AlbumCredit) :=
  if titles.length ≤ wrappers.length then
    .ok (((titles.zip wrappers).map
      (fun p => parse_credit_wrapper p.1 p.2)).flatten)
  else .error (.indexError "list index out of range")

/-! ## Artist discography (`src/aoty/scrapers/artist.py`) -/

/-- An `AlbumSummary` record (`src/aoty/models.py`). -/
structure AlbumSummary where
  title : String
  artist : String
  url : Option String
  year : Option Int
  type : Option String
  cover_url : Option String
  critic_score : Option ℚ
  critic_review_count : Option Int
  user_score : Option ℚ
  user_rating_count : Option Int
  deriving Repr, DecidableEq

/-- The cover `img` node of an album block with its `data-src` and `src`
attributes (`none` when the attribute is missing). -/
structure CoverImg where
  dataSrc : Option String
  src : Option String
  deriving Repr, DecidableEq

/-- Node content of one `div.albumBlock`, holding exactly what
`ArtistScraper._parse_album_block` reads: the stripped text of
`a div.albumTitle` when that node exists, the optional `href` of the first
`a` when that node exists, the text of `div.type`, the cover `img`, the
stripped text of `a div.artistTitle`, and the raw texts of the
`div.ratingRow` nodes (in document order). -/
structure AlbumBlockNode where
  albumTitle : Option String
  link : Option (Option String)
  typeText : Option String
  cover : Option CoverImg
  artistTitle : Option String
  ratingRows : List String
  deriving Repr, DecidableEq

/-- Embedding of `re.sub(r"/\d+x0", "", s)`: remove each leftmost
non-overlapping occurrence of a slash, one or more digits, then `x0`. -/
def matchSizeMod : List Char → Option (List Char)
  | '/' :: rest =>
    let ds := rest.takeWhile Char.isDigit
    if ds ≠ [] then
      match rest.dropWhile Char.isDigit with
      | 'x' :: '0' :: r => some r
      | _ => none
    else none
  | _ => none

/-- Scan of `re.sub(r"/\d+x0", "", s)` over the whole string.  The fuel
argument only bounds the recursion; with fuel at least the input length the
zero-fuel case is never reached, since every step (match or no match)
consumes at least one input character. -/
def subSizeModFuel : Nat → List Char → List Char
  | _, [] => []
  | 0, l => l
  | fuel + 1, c :: rest =>
    match matchSizeMod (c :: rest) with
    | some r => subSizeModFuel fuel r
    | none => c :: subSizeModFuel fuel rest

/-- Embedding of `re.sub(r"/\d+x0", "", s)` on a character list. -/
def subSizeMod (l : List Char) : List Char :=
  subSizeModFuel l.length l

/-- Leftmost match of `re.search(r"(\d{4})", s)`: the first run of four
consecutive digits. -/
def searchFourDigits : List Char → Option Nat
  | [] => none
  | c :: rest =>
    match c :: rest with
    | a :: b :: d :: e :: _ =>
      if a.isDigit ∧ b.isDigit ∧ d.isDigit ∧ e.isDigit then
        some (natOfDigits [a, b, d, e])
      else searchFourDigits rest
    | _ => none

/-- Anchored match of `re.match(r"(\d+)\s*(critic|user)\s*score\s*\((\d+(,\d+)?)\)", text)`
in `ArtistScraper._parse_rating`: returns the score (group 1 as a float) and
the count (group 3 with the thousands separator stripped, as an int). -/
def parse_rating_text (t : String) : Option ℚ × Option Int :=
  let l := t.data
  let d1 := l.takeWhile Char.isDigit
  let r1 := l.dropWhile Char.isDigit
  if d1 = [] then (none, none) else
  let r2 := r1.dropWhile isPySpace
  let kindRest : Option (List Char) :=
    if isPrefixList "critic".data r2 then some (r2.drop 6)
    else if isPrefixList "user".data r2 then some (r2.drop 4)
    else none
  match kindRest with
  | none => (none, none)
  | some r3 =>
    let r4 := r3.dropWhile isPySpace
    if isPrefixList "score".data r4 then
      let r5 := (r4.drop 5).dropWhile isPySpace
      match r5 with
      | '(' :: r6 =>
        let g := r6.takeWhile Char.isDigit
        let r7 := r6.dropWhile Char.isDigit
        if g = [] then (none, none) else
        match r7 with
        | ')' :: _ => (some ((natOfDigits d1 : ℚ)), some ((natOfDigits g : Int)))
        | ',' :: r8 =>
          let g2 := r8.takeWhile Char.isDigit
          let r9 := r8.dropWhile Char.isDigit
          if g2 ≠ [] then
            match r9 with
            | ')' :: _ =>
              (some ((natOfDigits d1 : ℚ)), some ((natOfDigits (g ++ g2) : Int)))
            | _ => (none, none)
          else (none, none)
        | _ => (none, none)
      | _ => (none, none)
    else (none, none)

/-- The `div.ratingRow` loop of `_parse_album_block`: the last row whose raw
text contains `"critic score"` sets the critic pair, the last row containing
`"user score"` (and not `"critic score"`) sets the user pair. -/
def album_block_ratings (rows : List String) :
    (Option ℚ × Option Int) × (Option ℚ × Option Int) :=
  rows.foldl
    (fun st n =>
      if containsSub "critic score".data n.data then (parse_rating_text n, st.2)
      else if containsSub "user score".data n.data then (st.1, parse_rating_text n)
      else st)
    ((none, none), (none, none))

/-- Embedding of `ArtistScraper._parse_album_block`: skip the block (returning
`None`) when the title or link node is missing; otherwise build the summary.
The image-size-modifier substitution `re.sub(r"/\d+x0", "", cover_url)` is
applied unconditionally, so a missing cover value raises `TypeError`. -/
def parse_album_block (node : AlbumBlockNode) (original_artist : String)
    (album_category : Option String) : Except PyExc (Option AlbumSummary) :=
  match node.albumTitle, node.link with
  | some album_title, some href =>
    let album_url := build_full_url href
    let cover_url : Option String :=
      match node.cover with
      | some c => pyOrStr c.dataSrc c.src
      | none => none
    match cover_url with
    | none => .error (.typeError "expected string or bytes-like object")
    | some cu =>
      let cover2 := String.mk (subSizeMod cu.data)
      let year : Option Int :=
        match node.typeText with
        | some yt => (searchFourDigits (stripChars yt.data)).map (fun n => (n : Int))
        | none => none
      let ratings := album_block_ratings node.ratingRows
      let album_artist : String :=
        match node.artistTitle with
        | some a => a
        | none => original_artist
      .ok (some
        { title := album_title
          artist := album_artist
          url := album_url
          year := year
          type := album_category
          cover_url := some cover2
          critic_score := ratings.1.1
          critic_review_count := ratings.1.2
          user_score := ratings.2.1
          user_rating_count := ratings.2.2 })
  | _, _ => .ok none

/-- A direct child of the `div#albumOutput` container, as classified by the
discography walk: an `h2.subHeadline` with its stripped text, a
`div.albumBlock`, or any other child (skipped). -/
inductive DiscogChild where
  | subHeadline (text : String)
  | albumBlock (node : AlbumBlockNode)
  | other

/-- Category-label update applied when a subheading is encountered: when the
text contains the literal `"View All"`, that substring is removed (via
`str.replace`) and the result stripped of surrounding whitespace. -/
def headline_category (t : String) : String :=
  if containsSub "View All".data t.data then
    String.mk (stripChars (replaceList "View All".data [] t.data))
  else t

/-- Embedding of the discography walk in `ArtistScraper._scrape_artist_page`:
a fold over the container's direct children maintaining the current category,
collecting the summaries of blocks that parse. -/
def walk_discography (original_artist : String) :
    List DiscogChild → Option String → Except PyExc (List AlbumSummary)
  | [], _ => .ok []
  | .subHeadline t :: rest, _ =>
    walk_discography original_artist rest (some (headline_category t))
  | .albumBlock n :: rest, cat => do
    let s? ← parse_album_block n original_artist cat
    let tail ← walk_discography original_artist rest cat
    pure (match s? with
      | some s => s :: tail
      | none => tail)
  | .other :: rest, cat => walk_discography original_artist rest cat

/-- Discography phase of `ArtistScraper._scrape_artist_page` together with its
outer exception boundary: any exception escaping the walk is re-raised as
`ParsingError` naming the page URL and wrapping the inner message. -/
def scrape_artist_discography (url original_artist : String)
    (children : List DiscogChild) : Except AotyErr (List AlbumSummary) :=
  match walk_discography original_artist children none with
  | .ok l => .ok l
  | .error e =>
    .error (.parsingError
      ("Failed to parse artist data from " ++ url ++ ": " ++ pyExcMessage e))

/-! ## News scraper (`src/aoty/scrapers/news.py`) -/

/-- One `div.mediaContainer` element: optional title-link text, optional
title-link `href`, optional post-date text. -/
structure NewsContainerNode where
  titleText : Option String
  titleHref : Option String
  postDate : Option String
  deriving Repr, DecidableEq

/-- A parsed news-listing page: its article containers in document order. -/
structure NewsPageDoc where
  containers : List NewsContainerNode
  deriving Repr, DecidableEq

/-- A `NewsArticle` record (`src/aoty/models.py`): a missing `href` yields an
empty-string URL rather than an absent one. -/
structure NewsArticle where
  title : Option String
  url : String
  publication_date : Option String
  deriving Repr, DecidableEq

/-- Article built from one container in `scrape_news_articles`. -/
def news_article_of (c : NewsContainerNode) : NewsArticle :=
  { title := c.titleText
    url :=
      match c.titleHref with
      | some p => if p = "" then "" else AOTY_BASE_URL ++ p
      | none => ""
    publication_date := c.postDate }

/-- URL of the news listing for a page number: page 1 has no number segment. -/
def news_page_url (page : Nat) : String :=
  if page > 1 then AOTY_BASE_URL ++ "/l/newsworthy/" ++ toString page ++ "/"
  else AOTY_BASE_URL ++ "/l/newsworthy/"

/-- Pagination loop of `NewsScraper.scrape_news_articles`: `fuel` is the
number of page iterations the `while page_number <= max_pages` loop still
allows.  Returns the list of page numbers actually fetched together with the
outcome; a page with no article containers breaks the loop, a fetch failure
re-raises its own kind wrapped with the page number and URL. -/
def scrape_news_loop (fetch : Nat → FetchOutcome NewsPageDoc) :
    Nat → Nat → List NewsArticle → List Nat × Except AotyErr (List NewsArticle)
  | 0, _, acc => ([], .ok acc)
  | fuel + 1, page, acc =>
    match fetch page with
    | .notFound =>
      ([page], .error (.resourceNotFound
        ("Resource not found while scraping news page " ++ toString page ++
          " (" ++ news_page_url page ++ ")")))
    | .network m =>
      ([page], .error (.networkError
        ("Network error while scraping news page " ++ toString page ++
          " (" ++ news_page_url page ++ "): " ++ m)))
    | .success doc =>
      if doc.containers.isEmpty then ([page], .ok acc)
      else
        let acc2 := acc ++ doc.containers.map news_article_of
        let next := scrape_news_loop fetch fuel (page + 1) acc2
        (page :: next.1, next.2)

/-- Embedding of `NewsScraper.scrape_news_articles`: loop from page 1 up to
`max_pages` inclusive. -/
def scrape_news_articles (fetch : Nat → FetchOutcome NewsPageDoc)
    (max_pages : Nat) : List Nat × Except AotyErr (List NewsArticle) :=
  scrape_news_loop fetch max_pages 1 []

/-! ## Bulk user ratings (`AlbumScraper.scrape_user_reviews_ratings`) -/

/-- A `UserRating` record (`src/aoty/models.py`). -/
structure UserRating where
  username : Option String
  user_url : Option String
  rating : Option ℚ
  date : Option String
  deriving Repr, DecidableEq

/-- The `div.userName a` link of a rating block: its `href` and `title`
attributes. -/
structure RatingNameNode where
  href : Option String
  title : Option String
  deriving Repr, DecidableEq

/-- One `div.userRatingBlock`: the optional username link, the stripped text
of `div.ratingBlock div.rating` when that node exists, and the `title`
attribute of `div.date` when that node exists. -/
structure RatingBlock where
  userName : Option RatingNameNode
  ratingText : Option String
  dateNode : Option (Option String)
  deriving Repr, DecidableEq

/-- A fetched ratings page: the stripped text of `div.userReviewCounter` when
present, and the rating blocks in document order. -/
structure RatingsPage where
  counterText : Option String
  blocks : List RatingBlock
  deriving Repr, DecidableEq

/-- Per-block extraction in `scrape_user_reviews_ratings`: a block missing any
of the three nodes is silently skipped; a present username link without an
`href` raises `ParsingError`. -/
def parse_rating_block (b : RatingBlock) : Except AotyErr (Option UserRating) :=
  match b.userName, b.ratingText, b.dateNode with
  | some un, some rt, some dt =>
    match un.href with
    | none => .error (.parsingError "Missing user URL suffix in user rating block.")
    | some href =>
      .ok (some
        { username := un.title
          user_url := build_full_url (some href)
          rating := parse_float_text (some rt) none
          date := dt })
  | _, _, _ => .ok none

/-- Extraction over all rating blocks of one page, in order. -/
def collect_rating_blocks : List RatingBlock → Except AotyErr (List UserRating)
  | [] => .ok []
  | b :: rest => do
    let r? ← parse_rating_block b
    let tail ← collect_rating_blocks rest
    pure (match r? with
      | some r => r :: tail
      | none => tail)

/-- Match of `re.search(r"of (\d+) user reviews", text)` at the current
position: the literal `"of "`, one or more digits, then `" user reviews"`. -/
def matchOfUserReviewsAt (l : List Char) : Option Nat :=
  if isPrefixList "of ".data l then
    let rest := l.drop 3
    let ds := rest.takeWhile Char.isDigit
    if ds ≠ [] ∧ isPrefixList " user reviews".data (rest.dropWhile Char.isDigit) then
      some (natOfDigits ds)
    else none
  else none

/-- Leftmost match of `re.search(r"of (\d+) user reviews", text)`. -/
def searchOfUserReviews : List Char → Option Nat
  | [] => none
  | c :: rest =>
    match matchOfUserReviewsAt (c :: rest) with
    | some n => some n
    | none => searchOfUserReviews rest

/-- Total review count extracted from the counter node: zero when the node is
absent, its text falsy, or the pattern does not occur. -/
def total_reviews_of (counter : Option String) : Nat :=
  match counter with
  | some t => if t = "" then 0 else (searchOfUserReviews t.data).getD 0
  | none => 0

/-- The site shows 80 ratings per page (literal constant in the scraper). -/
def reviews_per_page : Nat := 80

/-- Total pages: `ceil(total_reviews / reviews_per_page)` when the total is
positive, else 1. -/
def total_pages_of (total_reviews : Nat) : Nat :=
  if total_reviews > 0 then
    (total_reviews + reviews_per_page - 1) / reviews_per_page
  else 1

/-- Message text of a scraper failure (its `str(e)`). -/
def aotyErrMessage : AotyErr → String
  | .albumNotFound m => m
  | .artistNotFound m => m
  | .resourceNotFound m => m
  | .networkError m => m
  | .parsingError m => m

/-- Embedding of `AlbumScraper.scrape_user_reviews_ratings` over a page
oracle: fetch page 1, derive the page count from its counter text, collect
page 1's blocks, then (when more than one page exists) fetch pages
`2..total_pages` and append their ratings in ascending page order.  Any
exception during parsing is caught at the outer boundary and re-raised as
`ParsingError` naming the album id.  Returns the page numbers fetched
together with the outcome; when page 1's parsing raises, the additional
pages are never requested.  (The not-found / network translation on the
first fetch is outside this embedding, whose oracle always yields a page.) -/
def scrape_user_reviews_ratings (fetch : Nat → RatingsPage) (album_id : String) :
    List Nat × Except AotyErr (List UserRating) :=
  let firstPage := fetch 1
  let total_reviews := total_reviews_of firstPage.counterText
  let total_pages := total_pages_of total_reviews
  let additional : List Nat :=
    if total_pages > 1 then List.range' 2 (total_pages - 1) else []
  match collect_rating_blocks firstPage.blocks with
  | .error e =>
    ([1], .error (.parsingError ("Failed to parse user ratings from album ID "
      ++ album_id ++ ": " ++ aotyErrMessage e)))
  | .ok firstRatings =>
    match additional.foldlM
        (fun acc p => do
          let rs ← collect_rating_blocks (fetch p).blocks
          pure (acc ++ rs)) [] with
    | .error e =>
      (1 :: additional, .error (.parsingError ("Failed to parse user ratings from album ID "
        ++ album_id ++ ": " ++ aotyErrMessage e)))
    | .ok more => (1 :: additional, .ok (firstRatings ++ more))

/-! ## Sample data used to instantiate hypotheses at concrete inputs -/

/-- A well-formed discography album block with the given title. -/
def c5Block (t : String) : AlbumBlockNode :=
  { albumTitle := some t
    link := some (some ("/album/" ++ t))
    typeText := some "2020"
    cover := some ⟨some "/img/a.jpg", none⟩
    artistTitle := none
    ratingRows := [] }

/-- The summary `c5Block t` parses to under category `cat`. -/
def c5Summary (t : String) (cat : Option String) : AlbumSummary :=
  { title := t
    artist := "Artist"
    url := some (AOTY_BASE_URL ++ ("/album/" ++ t))
    year := some 2020
    type := cat
    cover_url := some "/img/a.jpg"
    critic_score := none
    critic_review_count := none
    user_score := none
    user_rating_count := none }

/-- A well-formed rating block for a user with the given name. -/
def c4Block (u : String) : RatingBlock :=
  ⟨some ⟨some ("/user/" ++ u), some u⟩, some "85", some (some "Jan 1, 2023")⟩

/-- The rating `c4Block u` extracts to. -/
def c4Rating (u : String) : UserRating :=
  { username := some u
    user_url := some (AOTY_BASE_URL ++ ("/user/" ++ u))
    rating := some 85
    date := some "Jan 1, 2023" }

/-- A ratings oracle whose first page reports 160 reviews and whose pages 1
and 2 hold one rating block each. -/
def c4Fetch : Nat → RatingsPage := fun p =>
  if p = 1 then ⟨some "of 160 user reviews", [c4Block "a"]⟩
  else if p = 2 then ⟨none, [c4Block "b"]⟩
  else ⟨none, []⟩

/-- A ratings oracle with no counter text and no rating blocks anywhere. -/
def c4FetchZero : Nat → RatingsPage := fun _ => ⟨none, []⟩

/-! # Theorems -/

/-- Claim C1: the spec's five-leaf taxonomy (including `ArtistNotFoundError`)
is the clear intent — the artist scraper imports and raises
`ArtistNotFoundError` from `aoty.exceptions` — but the exceptions module
defines only four leaf subclasses of `AOTYError` and no
`ArtistNotFoundError`, so that import fails.  This theorem evaluates the
code at the failing point: the name imported by `artist.py` is absent from
the set of classes `exceptions.py` defines. -/
theorem taxonomy_missing_artist_not_found :
    aoty_error_leaves
      = ["AlbumNotFoundError", "ParsingError", "ResourceNotFoundError", "NetworkError"] ∧
    aoty_error_leaves.length = 4 ∧
    "ArtistNotFoundError" ∉ aoty_error_leaves ∧
    "ArtistNotFoundError" ∈ artist_module_exception_imports ∧
    "ArtistNotFoundError" ∉ exceptions_module_classes.map (fun p => p.1) := by
  decide

/-- Claim C2, counterexample: the claim says any text not matching the exact
no-space format returns absent, but `"December 2,2022"` (a space before the
one-digit day) parses successfully, because `strptime`'s `%d` field also
matches a space followed by a single non-zero digit. -/
theorem parse_release_date_space_ctrex :
    parse_release_date (some "December 2,2022") = some ⟨2022, 12, 2⟩ ∧
    parse_release_date (some "December 2,2022") ≠ none := by
  decide

/-- Claim C2 (amended): `parse_release_date` never raises (it is a total
function into an optional date); it returns absent for absent or empty
input, malformed separators, out-of-range day/month combinations such as
February 29 or 30 of a non-leap year, two-digit years, and text not matching
the format — except that a single space before a one-digit day is accepted
(the day field also matches a space plus one non-zero digit); well-formed
`"December2,2022"` yields December 2, 2022; and every returned date is a
valid calendar date with a four-digit-parsed year. -/
theorem parse_release_date_spec :
    (∀ s d, parse_release_date (some s) = some d →
      1 ≤ d.month ∧ d.month ≤ 12 ∧ 1 ≤ d.day ∧ d.day ≤ daysInMonth d.year d.month ∧
      1 ≤ d.year ∧ d.year ≤ 9999) ∧
    parse_release_date none = none ∧
    parse_release_date (some "") = none ∧
    parse_release_date (some "December2,2022") = some ⟨2022, 12, 2⟩ ∧
    parse_release_date (some "February29,2024") = some ⟨2024, 2, 29⟩ ∧
    parse_release_date (some "February29,2023") = none ∧
    parse_release_date (some "February30,2024") = none ∧
    parse_release_date (some "December2,22") = none ∧
    parse_release_date (some "December2 ,2022") = none ∧
    parse_release_date (some "December2.2022") = none ∧
    parse_release_date (some "2,2022December") = none ∧
    parse_release_date (some "December 2,2022") = some ⟨2022, 12, 2⟩ ∧
    parse_release_date (some "December 12,2022") = none ∧
    parse_release_date (some "December  2,2022") = none := by
  refine ⟨?_, by decide, by decide, by decide, by decide, by decide, by decide, by decide,
    by decide, by decide, by decide, by decide, by decide, by decide⟩
  intro s d h
  simp only [parse_release_date] at h
  split at h
  · exact absurd h (by simp)
  · simp only [strptime_BdY] at h
    split at h
    case _ y m dd _ =>
      simp only [mkPyDate] at h
      split at h
      case _ hg =>
        injection h with h
        subst h
        exact ⟨hg.2.2.1, hg.2.2.2.1, hg.2.2.2.2.1, hg.2.2.2.2.2, hg.1, hg.2.1⟩
      · exact absurd h (by simp)
    · exact absurd h (by simp)

/-- Witness for the universal part of the amended date claim, instantiated at
`"December2,2022"`. -/
theorem parse_release_date_spec_witness :
    1 ≤ (⟨2022, 12, 2⟩ : PyDate).month ∧ (⟨2022, 12, 2⟩ : PyDate).month ≤ 12 ∧
    1 ≤ (⟨2022, 12, 2⟩ : PyDate).day ∧
    (⟨2022, 12, 2⟩ : PyDate).day ≤ daysInMonth (⟨2022, 12, 2⟩ : PyDate).year
      (⟨2022, 12, 2⟩ : PyDate).month ∧
    1 ≤ (⟨2022, 12, 2⟩ : PyDate).year ∧ (⟨2022, 12, 2⟩ : PyDate).year ≤ 9999 :=
  parse_release_date_spec.1 "December2,2022" ⟨2022, 12, 2⟩ (by decide)

/-- Claim C3: on the primary album-page fetch, `scrape_album_by_id`
translates a `ResourceNotFoundError` into `AlbumNotFoundError` (never the
generic not-found kind) with the requested URL present in the message, and a
`NetworkError` into `ParsingError` whose message wraps the underlying
network-error message. -/
theorem scrape_album_by_id_fetch_translation {α β : Type}
    (fetch : String → FetchOutcome α) (body : α → Except AotyErr β)
    (album_id : String) :
    (fetch (AOTY_BASE_URL ++ "/album/" ++ album_id ++ ".php") = .notFound →
      scrape_album_by_id fetch body album_id
        = .error (.albumNotFound
            ("Album not found at URL: " ++ (AOTY_BASE_URL ++ "/album/" ++ album_id ++ ".php"))) ∧
      (∃ m, scrape_album_by_id fetch body album_id = .error (.albumNotFound m) ∧
        SubstrPresent (AOTY_BASE_URL ++ "/album/" ++ album_id ++ ".php") m) ∧
      (∀ m, scrape_album_by_id fetch body album_id ≠ .error (.resourceNotFound m))) ∧
    (∀ emsg, fetch (AOTY_BASE_URL ++ "/album/" ++ album_id ++ ".php") = .network emsg →
      scrape_album_by_id fetch body album_id
        = .error (.parsingError
            ("Failed to fetch album page " ++ (AOTY_BASE_URL ++ "/album/" ++ album_id ++ ".php")
              ++ ": " ++ emsg)) ∧
      ∃ m, scrape_album_by_id fetch body album_id = .error (.parsingError m) ∧
        SubstrPresent emsg m) := by
  constructor
  · intro hnf
    refine ⟨?_, ?_, ?_⟩
    · simp [scrape_album_by_id, scrape_album_page, hnf]
    · refine ⟨"Album not found at URL: "
        ++ (AOTY_BASE_URL ++ "/album/" ++ album_id ++ ".php"), ?_, ?_⟩
      · simp [scrape_album_by_id, scrape_album_page, hnf]
      · exact ⟨"Album not found at URL: ", "", by simp⟩
    · intro m hm
      rw [scrape_album_by_id, hnf] at hm
      simp [scrape_album_page] at hm
  · intro emsg hnet
    refine ⟨?_, ?_⟩
    · simp [scrape_album_by_id, scrape_album_page, hnet]
    · refine ⟨"Failed to fetch album page " ++ (AOTY_BASE_URL ++ "/album/" ++ album_id ++ ".php")
        ++ ": " ++ emsg, ?_, ?_⟩
      · simp [scrape_album_by_id, scrape_album_page, hnet]
      · exact ⟨"Failed to fetch album page " ++ (AOTY_BASE_URL ++ "/album/" ++ album_id ++ ".php")
          ++ ": ", "", by simp⟩

/-- Witness for the album fetch-translation claim at a concrete fetch
oracle and album id, exercising both the not-found and the network branch. -/
theorem scrape_album_by_id_fetch_translation_witness :
    (scrape_album_by_id (fun _ => (FetchOutcome.notFound : FetchOutcome Unit))
        (fun _ => Except.ok 0) "1-x"
      = .error (.albumNotFound
          ("Album not found at URL: " ++ (AOTY_BASE_URL ++ "/album/" ++ "1-x" ++ ".php")))) ∧
    (scrape_album_by_id (fun _ => (FetchOutcome.network "boom" : FetchOutcome Unit))
        (fun _ => Except.ok 0) "1-x"
      = .error (.parsingError
          ("Failed to fetch album page " ++ (AOTY_BASE_URL ++ "/album/" ++ "1-x" ++ ".php")
            ++ ": " ++ "boom"))) :=
  ⟨((scrape_album_by_id_fetch_translation (fun _ => (FetchOutcome.notFound : FetchOutcome Unit))
      (fun _ => Except.ok 0) "1-x").1 rfl).1,
   (((scrape_album_by_id_fetch_translation (fun _ => (FetchOutcome.network "boom" : FetchOutcome Unit))
      (fun _ => Except.ok 0) "1-x").2 "boom") rfl).1⟩

/-- Claim C9: `_build_full_url` returns absent not only for absent input but
also for the empty string, and returns the base URL prefixed onto every
non-empty path. -/
theorem build_full_url_spec :
    build_full_url none = none ∧
    build_full_url (some "") = none ∧
    ∀ p : String, p ≠ "" → build_full_url (some p) = some (AOTY_BASE_URL ++ p) := by
  refine ⟨rfl, by decide, ?_⟩
  intro p hp
  simp [build_full_url, hp]

/-- Witness for the URL-builder claim at a concrete non-empty path. -/
theorem build_full_url_spec_witness :
    build_full_url (some "/album/1-x.php") = some (AOTY_BASE_URL ++ "/album/1-x.php") :=
  build_full_url_spec.2.2 "/album/1-x.php" (by decide)

/-! ### Fold lemmas for the genre union -/

theorem foldl_genreStep_filterMap (metas : List (Option String)) (acc : List String) :
    metas.foldl (fun acc c => match c with
      | some name => genreStep acc name
      | none => acc) acc
      = (metas.filterMap id).foldl genreStep acc := by
  induction metas generalizing acc with
  | nil => rfl
  | cons c rest ih => cases c <;> simp [List.filterMap_cons, ih]

theorem foldl_genreStep_filter (l : List String) (acc : List String) :
    l.foldl genreStep acc = (l.filter (fun s => s ≠ "")).foldl dedupStep acc := by
  induction l generalizing acc with
  | nil => rfl
  | cons n rest ih =>
    by_cases hn : n = ""
    · subst hn
      simp [List.filter_cons, genreStep, ih]
    · simp [List.filter_cons, hn, List.foldl_cons, ih, genreStep, dedupStep]

theorem foldl_dedupStep_nodup (l : List String) (acc : List String) (h : acc.Nodup) :
    (l.foldl dedupStep acc).Nodup := by
  induction l generalizing acc with
  | nil => exact h
  | cons n rest ih =>
    apply ih
    by_cases hn : n ∈ acc
    · simpa [dedupStep, hn]
    · simp only [dedupStep, hn, not_false_eq_true, if_pos]
      simp [List.nodup_append, h, hn]

theorem mem_genreStep (acc : List String) (n g : String) :
    g ∈ genreStep acc n ↔ g ∈ acc ∨ (g = n ∧ n ≠ "") := by
  by_cases h1 : n = ""
  · subst h1
    simp [genreStep]
  · by_cases h2 : n ∈ acc
    · simp only [genreStep, h1, h2]
      simp only [not_true_eq_false, and_false, ne_eq, not_false_eq_true, true_and, if_false]
      constructor
      · exact Or.inl
      · rintro (hg | ⟨rfl, -⟩)
        · exact hg
        · exact h2
    · simp [genreStep, h1, h2]

theorem mem_foldl_genreStep (l : List String) (acc : List String) (g : String) :
    g ∈ l.foldl genreStep acc ↔ g ∈ acc ∨ (g ∈ l ∧ g ≠ "") := by
  induction l generalizing acc with
  | nil => simp
  | cons n rest ih =>
    rw [List.foldl_cons, ih, mem_genreStep]
    simp only [List.mem_cons, ne_eq]
    constructor
    · rintro ((hg | ⟨rfl, hn⟩) | ⟨hr, hg⟩)
      · exact Or.inl hg
      · exact Or.inr ⟨Or.inl rfl, hn⟩
      · exact Or.inr ⟨Or.inr hr, hg⟩
    · rintro (hg | ⟨(rfl | hr), hg⟩)
      · exact Or.inl (Or.inl hg)
      · exact Or.inl (Or.inr ⟨rfl, hg⟩)
      · exact Or.inr ⟨hr, hg⟩

/-- Claim C6: the genre list of an album details row is the de-duplicating
union (exact string match) of the meta-tag content values, the link texts and
the secondary-label texts, each distinct non-empty name exactly once, ordered
meta values first (document order), then new link values, then new secondary
values — and therefore the list never contains duplicates. -/
theorem album_genres_spec (metas : List (Option String)) (links secs : List String) :
    (album_genres metas links secs).Nodup ∧
    album_genres metas links secs
      = dedupKeepFirst ((metas.filterMap id ++ links ++ secs).filter (fun s => s ≠ "")) ∧
    ∀ g, g ∈ album_genres metas links secs ↔
      ((g ∈ metas.filterMap id ∨ g ∈ links ∨ g ∈ secs) ∧ g ≠ "") := by
  have hfold : album_genres metas links secs
      = (metas.filterMap id ++ links ++ secs).foldl genreStep [] := by
    simp only [album_genres, foldl_genreStep_filterMap, List.foldl_append]
  refine ⟨?_, ?_, ?_⟩
  · rw [hfold, foldl_genreStep_filter]
    exact foldl_dedupStep_nodup _ _ List.nodup_nil
  · rw [hfold, foldl_genreStep_filter]
    rfl
  · intro g
    rw [hfold, mem_foldl_genreStep]
    simp only [List.mem_append, List.not_mem_nil, false_or, ne_eq, or_assoc]

/-- Claim C7: for a credit entry with a name link, the `"Primary"` role text
is always filtered out; with no remaining roles (including an absent songs
container) exactly one credit is emitted carrying the section title as its
role, otherwise exactly one credit per remaining role, all sharing the name
and url — in particular roles `"Primary"` and `"Lyricist"` under section
`"Composition"` yield exactly the one credit with role `"Lyricist"`. -/
theorem parse_credit_spec (section_title : String) (e : CreditEntry)
    (nn : CreditNameNode) (h : e.nameNode = some nn) :
    "Primary" ∉ credit_roles e ∧
    (credit_roles e = [] →
      parse_credit section_title e = [⟨nn.text, build_full_url nn.href, section_title⟩]) ∧
    (credit_roles e ≠ [] →
      parse_credit section_title e
        = (credit_roles e).map (fun r => ⟨nn.text, build_full_url nn.href, r⟩)) ∧
    parse_credit "Composition" ⟨some nn, some ["Primary", "Lyricist"]⟩
      = [⟨nn.text, build_full_url nn.href, "Lyricist"⟩] ∧
    parse_credit "Composition" ⟨some nn, none⟩
      = [⟨nn.text, build_full_url nn.href, "Composition"⟩] := by
  refine ⟨?_, ?_, ?_, ?_, ?_⟩
  · cases hs : e.songsRoles <;> simp [credit_roles, hs, List.mem_filter]
  · intro hr
    simp [parse_credit, h, hr]
  · intro hr
    simp [parse_credit, h, hr]
  · simp [parse_credit, credit_roles]
  · simp [parse_credit, credit_roles]

/-- Witness for the credits claim at a concrete entry named `"X"`. -/
theorem parse_credit_spec_witness :
    parse_credit "Composition"
        ⟨some ⟨"X", some "/artist/1"⟩, some ["Primary", "Lyricist"]⟩
      = [⟨"X", build_full_url (some "/artist/1"), "Lyricist"⟩] ∧
    parse_credit "Composition" ⟨some ⟨"X", some "/artist/1"⟩, none⟩
      = [⟨"X", build_full_url (some "/artist/1"), "Composition"⟩] :=
  ⟨(parse_credit_spec "Composition" ⟨some ⟨"X", some "/artist/1"⟩, none⟩
      ⟨"X", some "/artist/1"⟩ rfl).2.2.2.1,
   (parse_credit_spec "Composition" ⟨some ⟨"X", some "/artist/1"⟩, none⟩
      ⟨"X", some "/artist/1"⟩ rfl).2.2.2.2⟩

/-! ### Discography lemmas -/

theorem parse_album_block_type {b : AlbumBlockNode} {a : String} {cat : Option String}
    {s : AlbumSummary} (h : parse_album_block b a cat = .ok (some s)) :
    s.type = cat := by
  simp only [parse_album_block] at h
  split at h
  · split at h
    · exact absurd h (by simp)
    · simp only [Except.ok.injEq, Option.some.injEq] at h
      subst h
      rfl
  · simp at h

/-- Claim C5, counterexample: on a heading whose text is literally
`"Singles (View All)"`, the code removes only the substring `"View All"` and
strips whitespace, leaving `"Singles ()"`, not `"Singles"` as the claim
states. -/
theorem discography_view_all_ctrex :
    walk_discography "Artist"
        [.subHeadline "Albums", .albumBlock (c5Block "A"),
         .subHeadline "EPs", .albumBlock (c5Block "B"),
         .subHeadline "Singles (View All)", .albumBlock (c5Block "C")] none
      = .ok [c5Summary "A" (some "Albums"), c5Summary "B" (some "EPs"),
             c5Summary "C" (some "Singles ()")] ∧
    (c5Summary "C" (some "Singles ()")).type ≠ some "Singles" := by
  constructor
  · rfl
  · decide

/-- Claim C5 (amended): every album block is tagged with the category text of
the most recently encountered subheading, where any literal `"View All"`
substring is removed and the result whitespace-trimmed; for headings whose
stripped texts are `"Albums"`, `"EPs"` and `"SinglesView All"` (the latter
being the concatenated stripped text of a `Singles` heading containing a
`View All` link, as in the site markup) each followed by one block, the three
summaries carry types `"Albums"`, `"EPs"`, `"Singles"`.  A heading text
literally containing `" (View All)"` would instead yield `"Singles ()"`. -/
theorem discography_view_all (artist : String) (b1 b2 b3 : AlbumBlockNode)
    (s1 s2 s3 : AlbumSummary)
    (h1 : parse_album_block b1 artist (some "Albums") = .ok (some s1))
    (h2 : parse_album_block b2 artist (some "EPs") = .ok (some s2))
    (h3 : parse_album_block b3 artist (some "Singles") = .ok (some s3)) :
    walk_discography artist
        [.subHeadline "Albums", .albumBlock b1, .subHeadline "EPs", .albumBlock b2,
         .subHeadline "SinglesView All", .albumBlock b3] none = .ok [s1, s2, s3] ∧
    s1.type = some "Albums" ∧ s2.type = some "EPs" ∧ s3.type = some "Singles" := by
  have e1 : headline_category "Albums" = "Albums" := by decide
  have e2 : headline_category "EPs" = "EPs" := by decide
  have e3 : headline_category "SinglesView All" = "Singles" := by decide
  refine ⟨?_, parse_album_block_type h1, parse_album_block_type h2,
    parse_album_block_type h3⟩
  simp only [walk_discography, e1, e2, e3, h1, h2, h3]
  rfl

/-- Witness for the amended discography claim at three concrete blocks. -/
theorem discography_view_all_witness :
    walk_discography "Artist"
        [.subHeadline "Albums", .albumBlock (c5Block "A"),
         .subHeadline "EPs", .albumBlock (c5Block "B"),
         .subHeadline "SinglesView All", .albumBlock (c5Block "C")] none
      = .ok [c5Summary "A" (some "Albums"), c5Summary "B" (some "EPs"),
             c5Summary "C" (some "Singles")] ∧
    (c5Summary "A" (some "Albums")).type = some "Albums" ∧
    (c5Summary "B" (some "EPs")).type = some "EPs" ∧
    (c5Summary "C" (some "Singles")).type = some "Singles" :=
  discography_view_all "Artist" (c5Block "A") (c5Block "B") (c5Block "C")
    (c5Summary "A" (some "Albums")) (c5Summary "B" (some "EPs"))
    (c5Summary "C" (some "Singles")) rfl rfl rfl

theorem parse_album_block_missing_cover {b : AlbumBlockNode} {a : String}
    {cat : Option String} {t : String} {href : Option String}
    (ht : b.albumTitle = some t) (hl : b.link = some href)
    (hcov : b.cover = none ∨ ∃ c, b.cover = some c ∧ c.dataSrc = none ∧ c.src = none) :
    parse_album_block b a cat = .error (.typeError "expected string or bytes-like object") := by
  simp only [parse_album_block, ht, hl]
  rcases hcov with hc | ⟨c, hc, hd, hs⟩
  · simp [hc]
  · simp [hc, hd, hs, pyOrStr]

theorem walk_discography_err_of_mem (artist : String) {b : AlbumBlockNode}
    {t : String} {href : Option String}
    (ht : b.albumTitle = some t) (hl : b.link = some href)
    (hcov : b.cover = none ∨ ∃ c, b.cover = some c ∧ c.dataSrc = none ∧ c.src = none) :
    ∀ (l : List DiscogChild) (cat : Option String), DiscogChild.albumBlock b ∈ l →
      ∃ e, walk_discography artist l cat = .error e := by
  intro l
  induction l with
  | nil => intro cat hmem; exact absurd hmem (List.not_mem_nil _)
  | cons hd rest ih =>
    intro cat hmem
    rcases List.mem_cons.mp hmem with heq | hmem2
    · subst heq
      refine ⟨.typeError "expected string or bytes-like object", ?_⟩
      simp only [walk_discography, parse_album_block_missing_cover ht hl hcov]
      rfl
    · cases hd with
      | subHeadline t2 =>
        obtain ⟨e, he⟩ := ih (some (headline_category t2)) hmem2
        exact ⟨e, by simp only [walk_discography, he]⟩
      | albumBlock b2 =>
        cases hp : parse_album_block b2 artist cat with
        | error e =>
          exact ⟨e, by simp only [walk_discography, hp]; rfl⟩
        | ok s? =>
          obtain ⟨e, he⟩ := ih cat hmem2
          refine ⟨e, ?_⟩
          simp only [walk_discography, hp, he]
          rfl
      | other =>
        obtain ⟨e, he⟩ := ih cat hmem2
        exact ⟨e, by simp only [walk_discography, he]⟩

/-- Claim C10: if an artist page's discography contains an album block whose
title and link nodes exist but whose cover image node is missing or carries
neither a lazy-load nor a plain source attribute, the whole artist scrape
fails with `ParsingError` (the size-modifier substitution is applied
unconditionally), rather than producing a summary with an absent cover. -/
theorem artist_discography_missing_cover (url artist : String)
    (children : List DiscogChild) (b : AlbumBlockNode) (t : String) (href : Option String)
    (hmem : DiscogChild.albumBlock b ∈ children)
    (ht : b.albumTitle = some t) (hl : b.link = some href)
    (hcov : b.cover = none ∨ ∃ c, b.cover = some c ∧ c.dataSrc = none ∧ c.src = none) :
    (∃ msg, scrape_artist_discography url artist children = .error (.parsingError msg)) ∧
    ∀ l, scrape_artist_discography url artist children ≠ .ok l := by
  obtain ⟨e, he⟩ := walk_discography_err_of_mem artist ht hl hcov children none hmem
  have hs : scrape_artist_discography url artist children
      = .error (.parsingError
          ("Failed to parse artist data from " ++ url ++ ": " ++ pyExcMessage e)) := by
    simp [scrape_artist_discography, he]
  constructor
  · exact ⟨_, hs⟩
  · intro l hok
    rw [hs] at hok
    exact absurd hok (by simp)

/-- Witness for the missing-cover claim at a one-block discography whose
block has a title and a link but no cover node. -/
theorem artist_discography_missing_cover_witness :
    (∃ msg, scrape_artist_discography "https://www.albumoftheyear.org/artist/1/" "A"
        [DiscogChild.albumBlock ⟨some "T", some (some "/album/t"), none, none, none, []⟩]
      = .error (.parsingError msg)) ∧
    ∀ l, scrape_artist_discography "https://www.albumoftheyear.org/artist/1/" "A"
        [DiscogChild.albumBlock ⟨some "T", some (some "/album/t"), none, none, none, []⟩]
      ≠ .ok l :=
  artist_discography_missing_cover "https://www.albumoftheyear.org/artist/1/" "A"
    [DiscogChild.albumBlock ⟨some "T", some (some "/album/t"), none, none, none, []⟩]
    ⟨some "T", some (some "/album/t"), none, none, none, []⟩ "T" (some "/album/t")
    (by simp) rfl rfl (Or.inl rfl)

/-! ### News pagination lemmas -/

theorem scrape_news_loop_nonempty (fetch : Nat → FetchOutcome NewsPageDoc)
    (fuel page : Nat) (acc : List NewsArticle) (doc : NewsPageDoc)
    (h : fetch page = .success doc) (hne : doc.containers.isEmpty = false) :
    scrape_news_loop fetch (fuel + 1) page acc
      = (page :: (scrape_news_loop fetch fuel (page + 1)
            (acc ++ doc.containers.map news_article_of)).1,
         (scrape_news_loop fetch fuel (page + 1)
            (acc ++ doc.containers.map news_article_of)).2) := by
  simp only [scrape_news_loop, h, hne, Bool.false_eq_true, if_false]

theorem scrape_news_loop_empty_page (fetch : Nat → FetchOutcome NewsPageDoc)
    (fuel page : Nat) (acc : List NewsArticle)
    (h : fetch page = .success ⟨[]⟩) :
    scrape_news_loop fetch (fuel + 1) page acc = ([page], .ok acc) := by
  simp only [scrape_news_loop, h]
  rfl

/-- Claim C8: `scrape_news_articles` stops paginating as soon as a fetched
page contains zero article containers, even before `max_pages` is reached:
with page 2 empty and `max_pages = 5`, exactly pages 1 and 2 are fetched and
only page 1's articles are returned, in page order. -/
theorem scrape_news_articles_stop (fetch : Nat → FetchOutcome NewsPageDoc)
    (p1 : NewsPageDoc) (h1 : fetch 1 = .success p1) (hne : p1.containers ≠ [])
    (h2 : fetch 2 = .success ⟨[]⟩) :
    scrape_news_articles fetch 5 = ([1, 2], .ok (p1.containers.map news_article_of)) := by
  have hie : p1.containers.isEmpty = false := by
    cases hc : p1.containers
    · exact absurd hc hne
    · rfl
  have step1 : scrape_news_loop fetch 5 1 []
      = (1 :: (scrape_news_loop fetch 4 2 ([] ++ p1.containers.map news_article_of)).1,
         (scrape_news_loop fetch 4 2 ([] ++ p1.containers.map news_article_of)).2) :=
    scrape_news_loop_nonempty fetch 4 1 [] p1 h1 hie
  have step2 : scrape_news_loop fetch 4 2 ([] ++ p1.containers.map news_article_of)
      = ([2], .ok ([] ++ p1.containers.map news_article_of)) :=
    scrape_news_loop_empty_page fetch 3 2 ([] ++ p1.containers.map news_article_of) h2
  simp only [scrape_news_articles]
  rw [step1, step2]
  simp

/-- Witness for the news stop condition at a one-article first page and an
empty second page. -/
theorem scrape_news_articles_stop_witness :
    scrape_news_articles
        (fun p => if p = 1 then
            .success ⟨[⟨some "T", some "/news/t", some "Jan 1"⟩]⟩
          else .success ⟨[]⟩) 5
      = ([1, 2], .ok [⟨some "T", AOTY_BASE_URL ++ "/news/t", some "Jan 1"⟩]) := by
  have h := scrape_news_articles_stop
    (fun p => if p = 1 then
        FetchOutcome.success ⟨[⟨some "T", some "/news/t", some "Jan 1"⟩]⟩
      else .success ⟨[]⟩)
    ⟨[⟨some "T", some "/news/t", some "Jan 1"⟩]⟩ rfl (by simp) rfl
  exact h

/-! ### Ratings pagination lemmas -/

theorem total_pages_of_pos (t : Nat) : 1 ≤ total_pages_of t := by
  unfold total_pages_of reviews_per_page
  split
  case isTrue h =>
    rw [Nat.le_div_iff_mul_le (by norm_num)]
    omega
  case isFalse h => omega

/-- Claim C4: `scrape_user_reviews_ratings` fetches
`ceil(total / 80)` pages when the first page's counter yields a positive
total and one page otherwise; with the counter reading
`"of 160 user reviews"` exactly pages 1 and 2 are fetched and the result
lists page 1's ratings before page 2's; with total 0 only page 1 is fetched
and the result is empty when that page has no rating blocks. -/
theorem scrape_user_reviews_ratings_pagination (fetch : Nat → RatingsPage)
    (album_id : String) :
    ((fetch 1).counterText = some "of 160 user reviews" →
      ∀ r1 r2, collect_rating_blocks (fetch 1).blocks = .ok r1 →
        collect_rating_blocks (fetch 2).blocks = .ok r2 →
        scrape_user_reviews_ratings fetch album_id = ([1, 2], .ok (r1 ++ r2))) ∧
    (total_reviews_of (fetch 1).counterText = 0 →
      (scrape_user_reviews_ratings fetch album_id).1 = [1] ∧
      ((fetch 1).blocks = [] →
        (scrape_user_reviews_ratings fetch album_id).2 = .ok [])) ∧
    (∀ r1, collect_rating_blocks (fetch 1).blocks = .ok r1 →
      (scrape_user_reviews_ratings fetch album_id).1
        = 1 :: List.range' 2
            (total_pages_of (total_reviews_of (fetch 1).counterText) - 1)) := by
  refine ⟨?_, ?_, ?_⟩
  · intro hc r1 r2 hr1 hr2
    have hpages : total_pages_of (total_reviews_of ((fetch 1).counterText)) = 2 := by
      rw [hc]
      decide
    simp only [scrape_user_reviews_ratings, hpages]
    norm_num [List.range']
    rw [hr1, hr2]
  · intro h0
    have hpages : total_pages_of (total_reviews_of ((fetch 1).counterText)) = 1 := by
      rw [h0]
      decide
    simp only [scrape_user_reviews_ratings, hpages]
    norm_num
    constructor
    · cases hcb : collect_rating_blocks (fetch 1).blocks <;> simp [hcb, pure, Except.pure]
    · intro hb
      rw [hb]
      simp [collect_rating_blocks, pure, Except.pure]
  · intro r1 hr1
    simp only [scrape_user_reviews_ratings]
    rw [hr1]
    by_cases hp : total_pages_of (total_reviews_of ((fetch 1).counterText)) > 1
    · simp only [hp, if_true]
      cases hm : (List.range' 2
          (total_pages_of (total_reviews_of ((fetch 1).counterText)) - 1)).foldlM
          (fun acc p => do
            let rs ← collect_rating_blocks (fetch p).blocks
            pure (acc ++ rs)) ([] : List UserRating) <;>
        simp [hm]
    · have hge := total_pages_of_pos (total_reviews_of ((fetch 1).counterText))
      have h1 : total_pages_of (total_reviews_of ((fetch 1).counterText)) = 1 := by omega
      simp [h1, List.range', pure, Except.pure]

/-- Witness for the ratings pagination claim at a concrete two-page oracle
(160 reported reviews) and at a concrete empty oracle (no counter text). -/
theorem scrape_user_reviews_ratings_pagination_witness :
    scrape_user_reviews_ratings c4Fetch "569129"
      = ([1, 2], .ok [c4Rating "a", c4Rating "b"]) ∧
    (scrape_user_reviews_ratings c4FetchZero "569129").1 = [1] ∧
    (scrape_user_reviews_ratings c4FetchZero "569129").2 = .ok [] :=
  ⟨(scrape_user_reviews_ratings_pagination c4Fetch "569129").1 rfl
      [c4Rating "a"] [c4Rating "b"] rfl rfl,
   ((scrape_user_reviews_ratings_pagination c4FetchZero "569129").2.1 rfl).1,
   ((scrape_user_reviews_ratings_pagination c4FetchZero "569129").2.1 rfl).2 rfl⟩

end Aoty
